import Mathlib

/-!
Verification development for the rnode-ble-bridge repository.

The definitions below are shallow embeddings of the Python sources:
  src/bluetooth/ble_gatt_client.py   (GATT link, TX worker, connection monitor)
  src/bluetooth/ble_serial_bridge.py (per-device bridge, reconnect policy, data path)
  src/bluetooth/virtual_serial.py    (PTY endpoint, read/write pumps, symlink handling)
  src/bluetooth/ble_discovery.py     (scanner, discovered-device map)
  src/bluetooth/ble_pairing.py       (PIN cache, authentication callbacks)
  src/bluetooth/ble_manager.py       (control API)

Machine bytes are modelled as `Nat`, byte strings as `List Nat`; queues are
`List`s with enqueue at the tail (Python `queue.Queue` FIFO order); time is a
`Nat` number of seconds (`time.time()`); filesystem and BLE effects are made
explicit as arguments and results.
-/

namespace RNodeBLEBridge

/-- Bytes that travel through the bridge (Python `bytes` elements). -/
abbrev Byte := Nat

/-! ### GATT link: src/bluetooth/ble_gatt_client.py -/

/-- Conservative MTU used by `BLEGATTClient._tx_worker`
(`max_chunk_size = 20`). -/
def maxChunkSize : Nat := 20

/-- Chunking loop of `BLEGATTClient._tx_worker`:
`for i in range(0, len(data), max_chunk_size): chunk = data[i:i + max_chunk_size]`.
Each slice `data[i:i+20]` is `(data.drop i).take 20`, so iterating the slices in
order is the recursion below.  An empty frame produces no writes (the `range`
is empty). -/
def txChunks (data : List Byte) : List (List Byte) :=
  if data = [] then []
  else data.take maxChunkSize :: txChunks (data.drop maxChunkSize)
termination_by data.length
decreasing_by
  simp only [List.length_drop, maxChunkSize]
  have : 0 < data.length := List.length_pos.mpr (by assumption)
  omega

/-- `BLEGATTClient.send_data`: when connected the frame is put on `tx_queue`
(FIFO tail), otherwise it is dropped and `False` is returned. -/
def gattSendData (isConnected : Bool) (txQueue : List (List Byte)) (data : List Byte) :
    Bool × List (List Byte) :=
  if isConnected then (true, txQueue ++ [data]) else (false, txQueue)

/-- Writes issued to the RX characteristic when `_tx_worker` drains the queue
with every `write_gatt_char` succeeding: each dequeued frame is written as its
chunks, in frame order. -/
def txWorkerDrain (queue : List (List Byte)) : List (List Byte) :=
  (queue.map txChunks).flatten

/-- One `_tx_worker` loop iteration on a non-empty queue.  `failAt = none`
means every `write_gatt_char` call succeeds; `failAt = some k` means the write
of chunk `k` raises, in which case the chunks before `k` have already been
written and the `except` branch re-queues the whole frame with
`self.tx_queue.put(data)` (FIFO tail).  Result: remaining queue and the chunks
actually written. -/
def txWorkerIter (queue : List (List Byte)) (failAt : Option Nat) :
    List (List Byte) × List (List Byte) :=
  match queue with
  | [] => ([], [])
  | d :: rest =>
    match failAt with
    | none => (rest, txChunks d)
    | some k => (rest ++ [d], (txChunks d).take k)

/-- Chunks written when the first dequeued frame fails at chunk `k` and every
later write succeeds until the queue is empty. -/
def runTxAfterOneFailure (d : List Byte) (rest : List (List Byte)) (k : Nat) :
    List (List Byte) :=
  (txWorkerIter (d :: rest) (some k)).2 ++ txWorkerDrain (txWorkerIter (d :: rest) (some k)).1

/-- Connection-facing state of `BLEGATTClient`: its own flag, the mirrored
`rnode.is_connected` flag, and whether `connection_lost_callback` has fired. -/
structure GattConn where
  isConnected : Bool
  rnodeConnected : Bool
  callbackInvoked : Bool
deriving DecidableEq

/-- `BLEGATTClient._handle_connection_lost`: clears both connected flags and
invokes the `connection_lost` callback. -/
def handleConnectionLost (c : GattConn) : GattConn :=
  { c with isConnected := false, rnodeConnected := false, callbackInvoked := true }

/-- One `BLEGATTClient._connection_monitor` check: when the underlying client
reports not-connected, `_handle_connection_lost` runs; otherwise nothing
changes. -/
def connectionMonitorCheck (c : GattConn) (clientReportsConnected : Bool) : GattConn :=
  if clientReportsConnected then c else handleConnectionLost c

/-! ### Device bridge: src/bluetooth/ble_serial_bridge.py -/

/-- `BridgeState` enum. -/
inductive BridgeState where
  | disconnected
  | discovering
  | connecting
  | connected
  | error
deriving DecidableEq

/-- Reconnect-relevant state of `RNodeBridge`:
`self.state`, `self.last_connection_attempt`, `self.reconnect_attempts`. -/
structure RNodeBridgeSt where
  state : BridgeState
  lastConnectionAttempt : Nat
  reconnectAttempts : Nat
deriving DecidableEq

/-- `self.max_reconnect_attempts = 5`. -/
def maxReconnectAttempts : Nat := 5

/-- Endpoint operations performed by `RNodeBridge.reconnect`. -/
inductive BridgeOp where
  | disconnect
  | connect
deriving DecidableEq

/-- `RNodeBridge.disconnect`: sets the state to `DISCONNECTED` and cleans up. -/
def disconnectOp (b : RNodeBridgeSt) : RNodeBridgeSt :=
  { b with state := BridgeState.disconnected }

/-- Net effect of `RNodeBridge.connect` given whether both endpoints come up:
on success state becomes `CONNECTED` (after passing through `CONNECTING`) and
`reconnect_attempts` resets to 0; on failure state becomes `ERROR`. -/
def connectOp (b : RNodeBridgeSt) (success : Bool) : Bool × RNodeBridgeSt :=
  if success then
    (true, { b with state := BridgeState.connected, reconnectAttempts := 0 })
  else
    (false, { b with state := BridgeState.error })

/-- `RNodeBridge.reconnect` at time `now`: rejected when
`reconnect_attempts >= max_reconnect_attempts` or when
`time.time() - last_connection_attempt < 10`; otherwise records the attempt
and performs `disconnect()` then `connect()`.  The function performs no check
of `self.state`.  Returns the result, the new state, and the endpoint
operations performed. -/
def reconnectOp (b : RNodeBridgeSt) (now : Nat) (connectSuccess : Bool) :
    Bool × RNodeBridgeSt × List BridgeOp :=
  if maxReconnectAttempts ≤ b.reconnectAttempts then (false, b, [])
  else if now - b.lastConnectionAttempt < 10 then (false, b, [])
  else
    ((connectOp (disconnectOp
        { b with lastConnectionAttempt := now,
                 reconnectAttempts := b.reconnectAttempts + 1 }) connectSuccess).1,
     (connectOp (disconnectOp
        { b with lastConnectionAttempt := now,
                 reconnectAttempts := b.reconnectAttempts + 1 }) connectSuccess).2,
     [BridgeOp.disconnect, BridgeOp.connect])

/-- Repeated `reconnect()` invocations at the given times, with every
`connect()` failing (the situation of the reconnect bound: the bridge re-enters
`ERROR` each time).  Returns the final state and the times of the admitted
attempts. -/
def runReconnects (b : RNodeBridgeSt) : List Nat → RNodeBridgeSt × List Nat
  | [] => (b, [])
  | t :: ts =>
    ((runReconnects (reconnectOp b t false).2.1 ts).1,
     (if (reconnectOp b t false).2.2 = [] then [] else [t]) ++
       (runReconnects (reconnectOp b t false).2.1 ts).2)

/-- Separation predicate: each listed time is at least 10 seconds after the
previous one, the first at least 10 seconds after the given reference time. -/
def sepFrom : Nat → List Nat → Prop
  | _, [] => True
  | last, t :: ts => last + 10 ≤ t ∧ sepFrom t ts

/-- `RNodeBridge._on_serial_data_received`: data read from the PTY is handed
unchanged to `self.ble_client.send_data`. -/
def onSerialDataReceived (data : List Byte) : List Byte := data

/-- `RNodeBridge._on_ble_data_received` composed with
`BLEGATTClient._on_data_received`: notification bytes are converted with
`bytes(data)` and handed unchanged to `self.virtual_serial.send_data`. -/
def onBleDataReceived (data : List Byte) : List Byte := data

/-! ### PTY endpoint: src/bluetooth/virtual_serial.py -/

/-- State of `VirtualSerialPort` relevant to open/close and the symlink. -/
structure VirtualSerialPortSt where
  deviceName : String
  isOpen : Bool
  running : Bool
  masterFd : Option Nat
  slaveFd : Option Nat
  slavePath : Option String
deriving DecidableEq

/-- Result of `pty.openpty()` plus `os.ttyname(slave_fd)`; `none` models the
allocation raising. -/
structure PtyAlloc where
  masterFd : Nat
  slaveFd : Nat
  slavePath : String
deriving DecidableEq

/-- The friendly symlink path `f"/tmp/cu.{self.device_name}"`. -/
def symlinkPathOf (s : VirtualSerialPortSt) : String :=
  "/tmp/cu." ++ s.deviceName

/-- `VirtualSerialPort._cleanup`.  `fs` is the filesystem entry at the symlink
path: `none` when absent, `some target` when a symlink pointing at `target`
exists (`os.path.exists(p) or os.path.islink(p)` is its `isSome`).  Closes the
master fd, then the slave fd, and removes the symlink entry whenever
`self.slave_path` is set and an entry exists — the target is not inspected.
Returns the new state, the new filesystem entry, and the fds closed in
order. -/
def vspCleanup (s : VirtualSerialPortSt) (fs : Option String) :
    VirtualSerialPortSt × Option String × List Nat :=
  ({ s with masterFd := none, slaveFd := none, slavePath := none },
   (match s.slavePath with
    | some _ => if fs.isSome then none else fs
    | none => fs),
   (match s.masterFd with | some fd => [fd] | none => []) ++
   (match s.slaveFd with | some fd => [fd] | none => []))

/-- `VirtualSerialPort.close`.  Returns the new state, the filesystem entry at
the symlink path, the fds closed in order, and the connection-callback
invocations (the callback is called with `False` after cleanup).  When the
port is not open it returns immediately. -/
def vspClose (s : VirtualSerialPortSt) (fs : Option String) :
    VirtualSerialPortSt × Option String × List Nat × List Bool :=
  if s.isOpen then
    ((vspCleanup { s with running := false, isOpen := false } fs).1,
     (vspCleanup { s with running := false, isOpen := false } fs).2.1,
     (vspCleanup { s with running := false, isOpen := false } fs).2.2,
     [false])
  else (s, fs, [], [])

/-- `VirtualSerialPort.open`.  When already open it logs a warning and returns
`True` immediately, touching nothing.  Otherwise it allocates a PTY pair
(`alloc`), records both fds and the slave path, recreates the symlink
(removing any pre-existing entry), starts the pumps, and invokes the
connection callback with `True`; when allocation raises, `_cleanup` runs and
`False` is returned.  Returns the result, the new state, the filesystem entry
at the symlink path, and the connection-callback invocations. -/
def vspOpen (s : VirtualSerialPortSt) (fs : Option String) (alloc : Option PtyAlloc) :
    Bool × VirtualSerialPortSt × Option String × List Bool :=
  if s.isOpen then (true, s, fs, [])
  else
    match alloc with
    | none =>
      ((false : Bool), (vspCleanup s fs).1, (vspCleanup s fs).2.1, [])
    | some a =>
      (true,
       { s with masterFd := some a.masterFd, slaveFd := some a.slaveFd,
                slavePath := some a.slavePath, isOpen := true, running := true },
       some a.slavePath,
       [true])

/-- `VirtualSerialPort.send_data`: when open the chunk is put on `rx_queue`
(FIFO tail), otherwise it is dropped and `False` is returned. -/
def vspSendData (isOpen : Bool) (rxQueue : List (List Byte)) (data : List Byte) :
    Bool × List (List Byte) :=
  if isOpen then (true, rxQueue ++ [data]) else (false, rxQueue)

/-- Bytes written to the master fd when `_write_worker` drains `rx_queue` with
every `os.write` succeeding: each dequeued chunk is written unchanged. -/
def writeWorkerDrain (rxQueue : List (List Byte)) : List (List Byte) :=
  rxQueue

/-- Outcome of one `os.write(self.master_fd, data)` call in `_write_worker`:
either it succeeds or it raises `OSError` with the given `errno`. -/
inductive WriteStep where
  | success
  | oserror (errno : Nat)
deriving DecidableEq

/-- What `_write_worker` does after one write attempt. -/
inductive PumpAction where
  | wrote
  | requeueContinue
  | terminate
deriving DecidableEq

/-- Error policy of `VirtualSerialPort._write_worker`: on success the chunk is
written; on `OSError` with `e.errno in (9, 32)` (EBADF, EPIPE) the loop
breaks; on any other `OSError` (including EIO, errno 5) the chunk is re-queued
with `self.rx_queue.put(data)` and the loop continues. -/
def writeWorkerStep (step : WriteStep) : PumpAction :=
  match step with
  | WriteStep.success => PumpAction.wrote
  | WriteStep.oserror e =>
    if e = 9 ∨ e = 32 then PumpAction.terminate else PumpAction.requeueContinue

/-- One `_write_worker` write attempt of `chunk` with the rest of `rx_queue`
being `q`: returns the action, the queue afterwards, and the bytes written. -/
def writeWorkerIter (chunk : List Byte) (q : List (List Byte)) (step : WriteStep) :
    PumpAction × List (List Byte) × List (List Byte) :=
  match writeWorkerStep step with
  | PumpAction.wrote => (PumpAction.wrote, q, [chunk])
  | PumpAction.requeueContinue => (PumpAction.requeueContinue, q ++ [chunk], [])
  | PumpAction.terminate => (PumpAction.terminate, q, [])

/-! ### Bridge data path (claim pipelines)

While the bridge is `Connected`, `RNodeBridge` wires the endpoints directly:
PTY reads flow through `_on_serial_data_received` into `BLEGATTClient.send_data`
and are drained by `_tx_worker`; GATT notifications flow through
`_on_ble_data_received` into `VirtualSerialPort.send_data` and are drained by
`_write_worker`. -/

/-- GATT characteristic writes produced by a sequence of PTY master reads:
each read is forwarded to `send_data` (enqueued while connected) and the TX
worker drains the queue. -/
def serialToGattWrites (isConnected : Bool) (reads : List (List Byte)) :
    List (List Byte) :=
  txWorkerDrain
    (reads.foldl (fun q d => (gattSendData isConnected q (onSerialDataReceived d)).2) [])

/-- PTY master writes produced by a sequence of GATT notifications: each
notification is forwarded to `VirtualSerialPort.send_data` (enqueued while
open) and the write worker drains the queue. -/
def gattNotificationsToPty (isOpen : Bool) (notifications : List (List Byte)) :
    List (List Byte) :=
  writeWorkerDrain
    (notifications.foldl (fun q d => (vspSendData isOpen q (onBleDataReceived d)).2) [])

/-! ### Discovery: src/bluetooth/ble_discovery.py -/

/-- One advertisement sighting of an RNode device, as seen by
`detection_callback` after `_is_rnode_device` has accepted it: the address,
the advertised local name (`device.name`, possibly absent), and the RSSI
(`getattr(device, 'rssi', None)`). -/
structure Sighting where
  address : String
  name : Option String
  rssi : Option Int
deriving DecidableEq

/-- The `RNodeDevice` record. -/
structure RNodeDeviceRec where
  name : String
  address : String
  rssi : Option Int
  isConnected : Bool
deriving DecidableEq

/-- `RNodeDevice.__init__` for a sighting: `self.name = name or device.name or
"Unknown RNode"` (called with `name=None`, and Python `or` treats the empty
string as falsy), `self.rssi = getattr(device, 'rssi', None)`,
`self.is_connected = False`. -/
def mkRNodeDevice (s : Sighting) : RNodeDeviceRec :=
  { name :=
      match s.name with
      | some n => if n = "" then "Unknown RNode" else n
      | none => "Unknown RNode",
    address := s.address,
    rssi := s.rssi,
    isConnected := false }

/-- Association-list lookup keyed by address, mirroring Python `dict`
membership and indexing. -/
def alookup {α : Type} : List (String × α) → String → Option α
  | [], _ => none
  | (k, v) :: rest, a => if k = a then some v else alookup rest a

/-- `BLEDiscovery._handle_rnode_discovery`: a sighting of an address already
in `discovered_devices` changes nothing; a new address is inserted (Python
dicts preserve insertion order, modelled by appending). -/
def handleRnodeDiscovery (devices : List (String × RNodeDeviceRec)) (s : Sighting) :
    List (String × RNodeDeviceRec) :=
  if (alookup devices s.address).isSome then devices
  else devices ++ [(s.address, mkRNodeDevice s)]

/-- `BLEDiscovery.scan_for_rnodes`: clears `discovered_devices`, handles every
RNode sighting of the scan window in order, and returns
`list(self.discovered_devices.values())`. -/
def scanForRnodes (sightings : List Sighting) : List RNodeDeviceRec :=
  (sightings.foldl handleRnodeDiscovery []).map Prod.snd

/-- The first sighting of a given address in a scan window. -/
def firstSighting : List Sighting → String → Option Sighting
  | [], _ => none
  | s :: rest, a => if s.address = a then some s else firstSighting rest a

/-- The first entry with a given address in a device list. -/
def findByAddress : List RNodeDeviceRec → String → Option RNodeDeviceRec
  | [], _ => none
  | d :: rest, a => if d.address = a then some d else findByAddress rest a

/-! ### Pairing: src/bluetooth/ble_pairing.py -/

/-- Python `int(s)` on PIN strings: a nonempty all-digit string parses to its
value, anything else raises `ValueError` (`none`).  Sign, whitespace and
underscore forms accepted by Python do not occur for cached PINs, which the
spec constrains to short digit strings. -/
def pyIntDigits? (cs : List Char) : Option Nat :=
  if cs ≠ [] ∧ cs.all (fun c => c.isDigit) then
    some (cs.foldl (fun n c => 10 * n + (c.toNat - 48)) 0)
  else none

/-- Python `int(s)` for a Lean `String`. -/
def pyInt? (s : String) : Option Nat := pyIntDigits? s.toList

/-- An event surfaced through `BLEPairingManager.notify_pairing_event`; the
payload carries the PIN value (the source formats it as `f"{pin:06d}"`). -/
structure PairingEvent where
  address : String
  eventType : String
  pinValue : Nat
deriving DecidableEq

/-- `BLEAuthHandler.on_confirm_pin`.  `storedPin` is
`pairing_manager.get_stored_pin(self.device_address)`.  With a truthy stored
PIN that parses, the result is `int(stored_pin) == pin` and no event; on
`ValueError` (or no stored PIN, or an empty one — falsy in Python) the handler
auto-confirms: it surfaces a `pin_confirm` event and returns `True`.  Returns
the accept/reject decision and the events emitted. -/
def onConfirmPin (storedPin : Option String) (address : String) (pin : Nat) :
    Bool × List PairingEvent :=
  match storedPin with
  | some sp =>
    if sp = "" then (true, [{ address := address, eventType := "pin_confirm", pinValue := pin }])
    else
      match pyInt? sp with
      | some n => (decide (n = pin), [])
      | none => (true, [{ address := address, eventType := "pin_confirm", pinValue := pin }])
  | none => (true, [{ address := address, eventType := "pin_confirm", pinValue := pin }])

/-! ### Control API: src/bluetooth/ble_manager.py and
`BLESerialBridge.disconnect_device` -/

/-- Removal of a key from the bridges map (Python `del self.bridges[addr]`). -/
def removeKey {α : Type} : List (String × α) → String → List (String × α)
  | [], _ => []
  | (k, v) :: rest, a =>
    if k = a then removeKey rest a else (k, v) :: removeKey rest a

/-- `BLESerialBridge.disconnect_device`: when the address has a bridge, its
`disconnect()` coroutine is awaited and the entry is deleted; otherwise
nothing happens.  `raised` models the awaited `disconnect()` raising with the
given message, in which case the deletion is not reached.  Returns the new
map, the addresses whose bridge `disconnect()` was invoked, and a propagated
exception message if any. -/
def bridgeServiceDisconnectDevice (bridges : List (String × RNodeBridgeSt))
    (address : String) (raised : Option String) :
    List (String × RNodeBridgeSt) × List String × Option String :=
  if (alookup bridges address).isSome then
    match raised with
    | some e => (bridges, [address], some e)
    | none => (removeKey bridges address, [address], none)
  else (bridges, [], none)

/-- Structured result of the control API (`success`, `address`, `message`). -/
structure DisconnectResult where
  success : Bool
  address : String
  message : String
deriving DecidableEq

/-- `BLEManager.disconnect_device`: awaits the service-level operation inside
`try`; on an exception the result is a failure with
`f"Disconnect error: {e}"`, otherwise success with
`"Disconnected successfully"`. -/
def managerDisconnectDevice (bridges : List (String × RNodeBridgeSt))
    (address : String) (raised : Option String) :
    DisconnectResult × List (String × RNodeBridgeSt) :=
  match (bridgeServiceDisconnectDevice bridges address raised).2.2 with
  | some e =>
    ({ success := false, address := address, message := "Disconnect error: " ++ e },
     (bridgeServiceDisconnectDevice bridges address raised).1)
  | none =>
    ({ success := true, address := address, message := "Disconnected successfully" },
     (bridgeServiceDisconnectDevice bridges address raised).1)

/-! ### Concrete inputs used by witnesses and counterexamples -/

/-- The 30-byte string `"HELLOHELLOHELLOHELLOHELLOHELLO"` of the spec's happy
path scenario, as ASCII bytes. -/
def hello30 : List Byte :=
  [72, 69, 76, 76, 79, 72, 69, 76, 76, 79, 72, 69, 76, 76, 79,
   72, 69, 76, 76, 79, 72, 69, 76, 76, 79, 72, 69, 76, 76, 79]

/-- An open PTY endpoint whose slave path is `/dev/pts/3`. -/
def vspEx : VirtualSerialPortSt :=
  { deviceName := "RNode-AABBCCDDEE01", isOpen := true, running := true,
    masterFd := some 3, slaveFd := some 4, slavePath := some "/dev/pts/3" }

/-- Two sightings of the same address with different RSSI values. -/
def sightingsEx : List Sighting :=
  [{ address := "AA:BB:CC:DD:EE:01", name := some "RNode A", rssi := some (-50) },
   { address := "AA:BB:CC:DD:EE:01", name := some "RNode A", rssi := some (-40) }]

/-- A bridge sitting in `Connected` with a fresh attempt counter. -/
def bridgeConnEx : RNodeBridgeSt :=
  { state := BridgeState.connected, lastConnectionAttempt := 0, reconnectAttempts := 0 }

/-- A bridge that has just entered `Error` (a successful connect reset the
attempt counter before the failure). -/
def bridgeErrEx : RNodeBridgeSt :=
  { state := BridgeState.error, lastConnectionAttempt := 0, reconnectAttempts := 0 }

/-- A bridges map holding a single connected bridge. -/
def bridgesEx : List (String × RNodeBridgeSt) :=
  [("AA:BB:CC:DD:EE:01", bridgeConnEx)]

/-! ## Helper lemmas -/

/-- The chunks of a frame concatenate back to the frame. -/
theorem txChunks_flatten (d : List Byte) : (txChunks d).flatten = d := by
  induction d using txChunks.induct with
  | case1 => simp [txChunks]
  | case2 d h ih => rw [txChunks, if_neg h]; simp [ih]

/-- Every chunk has length at most the MTU. -/
theorem txChunks_length_le (d : List Byte) :
    ∀ c ∈ txChunks d, c.length ≤ maxChunkSize := by
  induction d using txChunks.induct with
  | case1 => simp [txChunks]
  | case2 d h ih =>
    rw [txChunks, if_neg h]
    intro c hc
    rcases List.mem_cons.mp hc with rfl | hc
    · simp [List.length_take]
    · exact ih c hc

/-- The number of chunks is the length of the frame divided by the MTU,
rounded up. -/
theorem txChunks_count (d : List Byte) :
    (txChunks d).length = (d.length + 19) / 20 := by
  induction d using txChunks.induct with
  | case1 => simp [txChunks]
  | case2 d h ih =>
    rw [txChunks, if_neg h, List.length_cons, ih]
    simp only [List.length_drop, maxChunkSize]
    have : 0 < d.length := List.length_pos.mpr h
    omega

/-- Any 30-byte frame is chunked into a 20-byte write followed by a 10-byte
write. -/
theorem txChunks_len30 (d : List Byte) (h : d.length = 30) :
    (txChunks d).map List.length = [20, 10] := by
  have h1 : d ≠ [] := by
    intro e; subst e; simp at h
  have h2 : d.drop maxChunkSize ≠ [] := by
    intro e
    have := congrArg List.length e
    simp [maxChunkSize, h] at this
  have h3 : (d.drop maxChunkSize).drop maxChunkSize = [] := by
    have : ((d.drop maxChunkSize).drop maxChunkSize).length = 0 := by
      simp [maxChunkSize, h]
    exact List.length_eq_zero.mp this
  rw [txChunks, if_neg h1, txChunks, if_neg h2, h3, txChunks]
  simp [maxChunkSize, List.length_take, List.length_drop, h]

/-- Enqueuing a sequence of PTY reads through `send_data` while connected
appends them to the TX queue in order. -/
theorem gattEnqueue_foldl (reads : List (List Byte)) (q : List (List Byte)) :
    reads.foldl (fun q d => (gattSendData true q (onSerialDataReceived d)).2) q
      = q ++ reads := by
  induction reads generalizing q with
  | nil => simp
  | cons d rest ih =>
    have hf : (gattSendData true q (onSerialDataReceived d)).2 = q ++ [d] := rfl
    rw [List.foldl_cons, hf, ih]
    simp

/-- Enqueuing a sequence of notifications through `send_data` while open
appends them to the RX queue in order. -/
theorem vspEnqueue_foldl (notifications : List (List Byte)) (q : List (List Byte)) :
    notifications.foldl (fun q d => (vspSendData true q (onBleDataReceived d)).2) q
      = q ++ notifications := by
  induction notifications generalizing q with
  | nil => simp
  | cons d rest ih =>
    have hf : (vspSendData true q (onBleDataReceived d)).2 = q ++ [d] := rfl
    rw [List.foldl_cons, hf, ih]
    simp

/-- Draining the TX queue writes chunks whose concatenation is the
concatenation of the queued frames. -/
theorem txWorkerDrain_flatten (queue : List (List Byte)) :
    (txWorkerDrain queue).flatten = queue.flatten := by
  induction queue with
  | nil => rfl
  | cons d rest ih =>
    simp only [txWorkerDrain, List.map_cons, List.flatten_cons, List.flatten_append,
      txChunks_flatten] at *
    rw [ih]

/-- A reconnect call outside the attempt budget or inside the cooldown
returns false and performs nothing. -/
theorem reconnectOp_rejected (b : RNodeBridgeSt) (now : Nat) (s : Bool)
    (h : maxReconnectAttempts ≤ b.reconnectAttempts ∨ now - b.lastConnectionAttempt < 10) :
    reconnectOp b now s = (false, b, []) := by
  rcases h with h | h
  · simp [reconnectOp, h]
  · by_cases h1 : maxReconnectAttempts ≤ b.reconnectAttempts
    · simp [reconnectOp, h1]
    · simp [reconnectOp, h1, h]

/-- An admitted reconnect records the attempt time, bumps the counter, runs
`disconnect()` then `connect()`, and lands in `Connected` (counter reset) or
`Error` according to the connect outcome. -/
theorem reconnectOp_admitted (b : RNodeBridgeSt) (now : Nat) (s : Bool)
    (h1 : b.reconnectAttempts < maxReconnectAttempts)
    (h2 : 10 ≤ now - b.lastConnectionAttempt) :
    reconnectOp b now s =
      (s,
       { state := if s then BridgeState.connected else BridgeState.error,
         lastConnectionAttempt := now,
         reconnectAttempts := if s then 0 else b.reconnectAttempts + 1 },
       [BridgeOp.disconnect, BridgeOp.connect]) := by
  have h1' : ¬ maxReconnectAttempts ≤ b.reconnectAttempts := Nat.not_le.mpr h1
  have h2' : ¬ (now - b.lastConnectionAttempt < 10) := Nat.not_lt.mpr h2
  cases s <;> simp [reconnectOp, h1', h2', connectOp, disconnectOp]

/-- Admitted attempts in a run of failing reconnects are separated by at
least 10 seconds, the first by at least 10 seconds from the recorded last
attempt. -/
theorem runReconnects_sep (ts : List Nat) (b : RNodeBridgeSt) :
    sepFrom b.lastConnectionAttempt (runReconnects b ts).2 := by
  induction ts generalizing b with
  | nil => trivial
  | cons t ts ih =>
    by_cases h1 : maxReconnectAttempts ≤ b.reconnectAttempts
    · have hr := reconnectOp_rejected b t false (Or.inl h1)
      simp only [runReconnects, hr]
      simpa using ih b
    · by_cases h2 : t - b.lastConnectionAttempt < 10
      · have hr := reconnectOp_rejected b t false (Or.inr h2)
        simp only [runReconnects, hr]
        simpa using ih b
      · have hr := reconnectOp_admitted b t false (Nat.not_le.mp h1) (Nat.not_lt.mp h2)
        simp only [runReconnects, hr]
        refine ⟨by omega, ?_⟩
        simpa using ih
          { state := BridgeState.error, lastConnectionAttempt := t,
            reconnectAttempts := b.reconnectAttempts + 1 }

/-- In a run of failing reconnects the attempt counter grows by exactly the
number of admitted attempts. -/
theorem runReconnects_attempts (ts : List Nat) (b : RNodeBridgeSt) :
    (runReconnects b ts).1.reconnectAttempts
      = b.reconnectAttempts + (runReconnects b ts).2.length := by
  induction ts generalizing b with
  | nil => simp [runReconnects]
  | cons t ts ih =>
    by_cases h1 : maxReconnectAttempts ≤ b.reconnectAttempts
    · have hr := reconnectOp_rejected b t false (Or.inl h1)
      simp only [runReconnects, hr]
      simpa using ih b
    · by_cases h2 : t - b.lastConnectionAttempt < 10
      · have hr := reconnectOp_rejected b t false (Or.inr h2)
        simp only [runReconnects, hr]
        simpa using ih b
      · have hr := reconnectOp_admitted b t false (Nat.not_le.mp h1) (Nat.not_lt.mp h2)
        simp only [runReconnects, hr]
        have := ih
          { state := BridgeState.error, lastConnectionAttempt := t,
            reconnectAttempts := b.reconnectAttempts + 1 }
        simp only [List.length_append, List.length_cons] at *
        simp [this]
        omega

/-- The attempt counter never exceeds the maximum in a run of failing
reconnects. -/
theorem runReconnects_le (ts : List Nat) (b : RNodeBridgeSt)
    (h : b.reconnectAttempts ≤ maxReconnectAttempts) :
    (runReconnects b ts).1.reconnectAttempts ≤ maxReconnectAttempts := by
  induction ts generalizing b with
  | nil => simpa [runReconnects] using h
  | cons t ts ih =>
    by_cases h1 : maxReconnectAttempts ≤ b.reconnectAttempts
    · have hr := reconnectOp_rejected b t false (Or.inl h1)
      simp only [runReconnects, hr]
      exact ih b h
    · by_cases h2 : t - b.lastConnectionAttempt < 10
      · have hr := reconnectOp_rejected b t false (Or.inr h2)
        simp only [runReconnects, hr]
        exact ih b h
      · have hr := reconnectOp_admitted b t false (Nat.not_le.mp h1) (Nat.not_lt.mp h2)
        simp only [runReconnects, hr]
        exact ih
          { state := BridgeState.error, lastConnectionAttempt := t,
            reconnectAttempts := b.reconnectAttempts + 1 }
          (Nat.not_le.mp h1)

/-! ## Claim theorems -/

/-- C1: Byte-transparency of the bridge data path.  While connected, the
concatenation of the frames handed to the GATT write characteristic equals
the concatenation of the byte strings read from the PTY master, and every
notification byte string is delivered unchanged to the PTY; the bridge
applies no transformation in either direction. -/
theorem byte_transparency (isConnected isOpenP : Bool)
    (reads notifications : List (List Byte))
    (hc : isConnected = true) (ho : isOpenP = true) :
    (serialToGattWrites isConnected reads).flatten = reads.flatten ∧
    gattNotificationsToPty isOpenP notifications = notifications ∧
    (gattNotificationsToPty isOpenP notifications).flatten = notifications.flatten := by
  subst hc; subst ho
  refine ⟨?_, ?_, ?_⟩
  · rw [serialToGattWrites, gattEnqueue_foldl, List.nil_append, txWorkerDrain_flatten]
  · rw [gattNotificationsToPty, vspEnqueue_foldl, List.nil_append, writeWorkerDrain]
  · rw [gattNotificationsToPty, vspEnqueue_foldl, List.nil_append, writeWorkerDrain]

/-- Witness for C1 at a concrete KISS-framed exchange. -/
theorem byte_transparency_witness :
    (true = true) ∧
    ((serialToGattWrites true [[192, 0, 1], [2, 192]]).flatten
        = [[192, 0, 1], [2, 192]].flatten ∧
     gattNotificationsToPty true [[192, 0, 1, 2, 192]] = [[192, 0, 1, 2, 192]] ∧
     (gattNotificationsToPty true [[192, 0, 1, 2, 192]]).flatten
        = [[192, 0, 1, 2, 192]].flatten) :=
  ⟨rfl, byte_transparency true true [[192, 0, 1], [2, 192]] [[192, 0, 1, 2, 192]] rfl rfl⟩

/-- C2: MTU chunking.  A frame of size `n > 20` handed to the GATT link is
written in exactly `⌈n / 20⌉` chunks, each of length at most 20, concatenating
back to the frame in order; a 30-byte frame produces a 20-byte write followed
by a 10-byte write. -/
theorem mtu_chunking (data : List Byte) (h : maxChunkSize < data.length) :
    (txChunks data).length = (data.length + (maxChunkSize - 1)) / maxChunkSize ∧
    (∀ c ∈ txChunks data, c.length ≤ maxChunkSize) ∧
    (txChunks data).flatten = data ∧
    (data.length = 30 → (txChunks data).map List.length = [20, 10]) :=
  ⟨txChunks_count data, txChunks_length_le data, txChunks_flatten data,
   fun h30 => txChunks_len30 data h30⟩

/-- Witness for C2 at the spec's 30-byte `"HELLO"*6` frame. -/
theorem mtu_chunking_witness :
    maxChunkSize < hello30.length ∧
    ((txChunks hello30).length = (hello30.length + (maxChunkSize - 1)) / maxChunkSize ∧
     (∀ c ∈ txChunks hello30, c.length ≤ maxChunkSize) ∧
     (txChunks hello30).flatten = hello30 ∧
     (hello30.length = 30 → (txChunks hello30).map List.length = [20, 10])) :=
  ⟨by decide, mtu_chunking hello30 (by decide)⟩

/-- Counterexample for C4 as stated: with outgoing queue `[[1], [2]]`, a
failing write of the dequeued frame `[1]` leaves the queue `[[2], [1]]` — the
frame is re-enqueued at the tail, not at the head, so queued frame order
toward the peripheral is not preserved. -/
theorem tx_requeue_head_counterexample :
    (txWorkerIter [[1], [2]] (some 0)).1 = [[2], [1]] ∧
    (txWorkerIter [[1], [2]] (some 0)).1 ≠ [[1], [2]] :=
  ⟨rfl, by decide⟩

/-- C4 (amended): when a GATT characteristic write fails in `_tx_worker`, the
whole frame is re-enqueued at the tail of the outgoing queue (chunks already
written before the failure are repeated on retry, and frames queued behind the
failing frame are sent before it), after which the worker backs off and
continues; write failures do not themselves transition the link to
disconnected — the connection monitor runs `_handle_connection_lost`, which
clears the connected flags and invokes `connection_lost`, when the underlying
client reports not-connected. -/
theorem tx_failure_requeues_at_tail (d : List Byte) (rest : List (List Byte)) (k : Nat)
    (c : GattConn) :
    (txWorkerIter (d :: rest) (some k)).1 = rest ++ [d] ∧
    (txWorkerIter (d :: rest) (some k)).2 = (txChunks d).take k ∧
    runTxAfterOneFailure d rest k
      = (txChunks d).take k ++ ((rest.map txChunks).flatten ++ txChunks d) ∧
    connectionMonitorCheck c true = c ∧
    (connectionMonitorCheck c false).isConnected = false ∧
    (connectionMonitorCheck c false).callbackInvoked = true := by
  refine ⟨rfl, rfl, ?_, rfl, rfl, rfl⟩
  simp [runTxAfterOneFailure, txWorkerIter, txWorkerDrain, List.map_append]

/-- Counterexample for C5 as stated: an `os.write` failing with `EPIPE`
(errno 32) terminates the write pump instead of re-queuing the chunk and
continuing. -/
theorem pty_write_epipe_counterexample :
    writeWorkerStep (WriteStep.oserror 32) = PumpAction.terminate ∧
    writeWorkerStep (WriteStep.oserror 32) ≠ PumpAction.requeueContinue ∧
    writeWorkerIter [1] [] (WriteStep.oserror 32) = (PumpAction.terminate, [], []) :=
  ⟨rfl, by decide, rfl⟩

/-- C5 (amended): in `_write_worker`, a write failing with `EIO` — or any
`OSError` other than `EBADF` and `EPIPE` — causes the chunk to be re-queued
(at the tail) and the pump to continue, while `EBADF` or `EPIPE` causes the
pump to terminate. -/
theorem pty_write_error_policy (chunk : List Byte) (q : List (List Byte)) (e : Nat) :
    writeWorkerStep WriteStep.success = PumpAction.wrote ∧
    writeWorkerStep (WriteStep.oserror 5) = PumpAction.requeueContinue ∧
    writeWorkerStep (WriteStep.oserror 9) = PumpAction.terminate ∧
    writeWorkerStep (WriteStep.oserror 32) = PumpAction.terminate ∧
    (writeWorkerStep (WriteStep.oserror e)
      = if e = 9 ∨ e = 32 then PumpAction.terminate else PumpAction.requeueContinue) ∧
    writeWorkerIter chunk q (WriteStep.oserror 5)
      = (PumpAction.requeueContinue, q ++ [chunk], []) :=
  ⟨rfl, rfl, rfl, rfl, rfl, rfl⟩

/-- Counterexample for C6 as stated: closing an open endpoint whose slave path
is `/dev/pts/3` while the symlink points at `/dev/pts/99` still removes the
symlink — the target is never compared with the endpoint's slave path. -/
theorem close_symlink_counterexample :
    vspEx.isOpen = true ∧
    vspEx.slavePath = some "/dev/pts/3" ∧
    ("/dev/pts/99" : String) ≠ "/dev/pts/3" ∧
    (vspClose vspEx (some "/dev/pts/99")).2.1 = none :=
  ⟨rfl, rfl, by decide, rfl⟩

/-- C6 (amended): for every open PTY endpoint, `close()` closes the two file
descriptors in master-then-slave order, invokes the connection callback with
`false`, and removes the `/tmp/cu.<device_name>` symlink whenever an entry
exists at that path, regardless of where it points. -/
theorem close_order_and_symlink (s : VirtualSerialPortSt) (fs : Option String)
    (m n : Nat) (p : String)
    (ho : s.isOpen = true) (hm : s.masterFd = some m) (hn : s.slaveFd = some n)
    (hp : s.slavePath = some p) :
    (vspClose s fs).2.2.1 = [m, n] ∧
    (vspClose s fs).2.1 = none ∧
    (vspClose s fs).2.2.2 = [false] ∧
    (vspClose s fs).1.isOpen = false ∧
    (vspClose s fs).1.masterFd = none ∧
    (vspClose s fs).1.slaveFd = none := by
  cases fs <;> simp [vspClose, vspCleanup, ho, hm, hn, hp]

/-- Witness for C6 (amended) at a concrete open endpoint whose symlink entry
is present. -/
theorem close_order_and_symlink_witness :
    (vspEx.isOpen = true ∧ vspEx.masterFd = some 3 ∧ vspEx.slaveFd = some 4 ∧
     vspEx.slavePath = some "/dev/pts/3") ∧
    ((vspClose vspEx (some "/dev/pts/3")).2.2.1 = [3, 4] ∧
     (vspClose vspEx (some "/dev/pts/3")).2.1 = none ∧
     (vspClose vspEx (some "/dev/pts/3")).2.2.2 = [false] ∧
     (vspClose vspEx (some "/dev/pts/3")).1.isOpen = false ∧
     (vspClose vspEx (some "/dev/pts/3")).1.masterFd = none ∧
     (vspClose vspEx (some "/dev/pts/3")).1.slaveFd = none) :=
  ⟨⟨rfl, rfl, rfl, rfl⟩,
   close_order_and_symlink vspEx (some "/dev/pts/3") 3 4 "/dev/pts/3" rfl rfl rfl rfl⟩

/-- C9: calling `open()` on a PTY endpoint that is already open returns
`True` and changes nothing — no new PTY pair is allocated, the state and the
symlink entry are untouched, and no connection callback fires. -/
theorem open_idempotent (s : VirtualSerialPortSt) (fs : Option String)
    (alloc : Option PtyAlloc) (h : s.isOpen = true) :
    vspOpen s fs alloc = (true, s, fs, []) := by
  simp [vspOpen, h]

/-- Witness for C9 at a concrete open endpoint, with a fresh allocation
offered and ignored. -/
theorem open_idempotent_witness :
    vspEx.isOpen = true ∧
    vspOpen vspEx (some "/dev/pts/3")
        (some { masterFd := 7, slaveFd := 8, slavePath := "/dev/pts/7" })
      = (true, vspEx, some "/dev/pts/3", []) :=
  ⟨rfl, open_idempotent vspEx (some "/dev/pts/3")
          (some { masterFd := 7, slaveFd := 8, slavePath := "/dev/pts/7" }) rfl⟩

/-- C10: disconnecting an address that has no bridge is a no-op that reports
success — the control API returns `success = true` with message
`"Disconnected successfully"`, no bridge `disconnect()` is invoked, and the
bridges map is unchanged. -/
theorem disconnect_absent_noop (bridges : List (String × RNodeBridgeSt))
    (address : String) (raised : Option String)
    (h : alookup bridges address = none) :
    managerDisconnectDevice bridges address raised
      = ({ success := true, address := address, message := "Disconnected successfully" },
         bridges) ∧
    bridgeServiceDisconnectDevice bridges address raised = (bridges, [], none) := by
  have hs : bridgeServiceDisconnectDevice bridges address raised = (bridges, [], none) := by
    simp [bridgeServiceDisconnectDevice, h]
  exact ⟨by simp [managerDisconnectDevice, hs], hs⟩

/-- Witness for C10 at a concrete map lacking the requested address. -/
theorem disconnect_absent_noop_witness :
    alookup bridgesEx "AA:BB:CC:DD:EE:02" = none ∧
    (managerDisconnectDevice bridgesEx "AA:BB:CC:DD:EE:02" none
       = ({ success := true, address := "AA:BB:CC:DD:EE:02",
            message := "Disconnected successfully" }, bridgesEx) ∧
     bridgeServiceDisconnectDevice bridgesEx "AA:BB:CC:DD:EE:02" none
       = (bridgesEx, [], none)) :=
  ⟨by decide, disconnect_absent_noop bridgesEx "AA:BB:CC:DD:EE:02" none (by decide)⟩

/-- Counterexample for C3 as stated: `reconnect()` performs no check of the
bridge state.  Called on a bridge in `Connected` (not `Error`) with the
attempt budget available and the cooldown elapsed, it acts: it runs
`disconnect()` then `connect()` and increments the attempt counter, refuting
that reconnect is admitted only in state `Error`. -/
theorem reconnect_state_counterexample :
    bridgeConnEx.state ≠ BridgeState.error ∧
    (reconnectOp bridgeConnEx 100 false).2.2 = [BridgeOp.disconnect, BridgeOp.connect] ∧
    (reconnectOp bridgeConnEx 100 false).2.1.reconnectAttempts = 1 ∧
    (reconnectOp bridgeConnEx 100 false).2.1 ≠ bridgeConnEx :=
  ⟨by decide, rfl, rfl, by decide⟩

/-- C3 (amended): `reconnect()` enforces a minimum 10-second cooldown since
the last connection attempt and a maximum of 5 consecutive attempts, and
outside those bounds returns false without performing any action; it does not
itself check the bridge state (the service's monitor loop invokes it only for
bridges in `Error`).  Each admitted attempt records the time, increments the
counter, and calls `disconnect()` followed by `connect()`.  Consequently,
from any single entry into `Error` with a reset counter, a run of failing
reconnect calls admits at most 5 actual attempts, successive admitted
attempts separated by at least 10 seconds. -/
theorem reconnect_policy (b : RNodeBridgeSt) (now : Nat) (s : Bool) (ts : List Nat)
    (hb : b.reconnectAttempts = 0) :
    ((maxReconnectAttempts ≤ b.reconnectAttempts ∨ now - b.lastConnectionAttempt < 10) →
       reconnectOp b now s = (false, b, [])) ∧
    (b.reconnectAttempts < maxReconnectAttempts → 10 ≤ now - b.lastConnectionAttempt →
       reconnectOp b now s =
         (s,
          { state := if s then BridgeState.connected else BridgeState.error,
            lastConnectionAttempt := now,
            reconnectAttempts := if s then 0 else b.reconnectAttempts + 1 },
          [BridgeOp.disconnect, BridgeOp.connect])) ∧
    (runReconnects b ts).2.length ≤ maxReconnectAttempts ∧
    sepFrom b.lastConnectionAttempt (runReconnects b ts).2 := by
  refine ⟨reconnectOp_rejected b now s, reconnectOp_admitted b now s, ?_, runReconnects_sep ts b⟩
  have ha := runReconnects_attempts ts b
  have hl := runReconnects_le ts b (by rw [hb]; exact Nat.zero_le _)
  omega

/-- Witness for C3 at a bridge freshly in `Error`, with two reconnect calls
at times 10 and 25. -/
theorem reconnect_policy_witness :
    bridgeErrEx.reconnectAttempts = 0 ∧
    ((runReconnects bridgeErrEx [10, 25]).2.length ≤ maxReconnectAttempts ∧
     sepFrom bridgeErrEx.lastConnectionAttempt (runReconnects bridgeErrEx [10, 25]).2) :=
  ⟨rfl, (reconnect_policy bridgeErrEx 50 false [10, 25] rfl).2.2⟩

/-- Lookup distributes over append when the key is found on the left. -/
theorem alookup_append_some {α : Type} (l1 l2 : List (String × α)) (a : String) (v : α)
    (h : alookup l1 a = some v) : alookup (l1 ++ l2) a = some v := by
  induction l1 with
  | nil => simp [alookup] at h
  | cons p rest ih =>
    obtain ⟨k, w⟩ := p
    by_cases hk : k = a
    · simpa [alookup, hk] using h
    · rw [List.cons_append, alookup, if_neg hk] at *
      exact ih h

/-- Lookup falls through to the right list when the key is absent on the
left. -/
theorem alookup_append_none {α : Type} (l1 l2 : List (String × α)) (a : String)
    (h : alookup l1 a = none) : alookup (l1 ++ l2) a = alookup l2 a := by
  induction l1 with
  | nil => rfl
  | cons p rest ih =>
    obtain ⟨k, w⟩ := p
    by_cases hk : k = a
    · simp [alookup, hk] at h
    · rw [alookup, if_neg hk] at h
      rw [List.cons_append, alookup, if_neg hk]
      exact ih h

/-- Looking an address up after a scan fold yields the accumulator's entry
when present, otherwise the record created from the first sighting of that
address. -/
theorem scanFold_alookup (ss : List Sighting) (m : List (String × RNodeDeviceRec))
    (a : String) :
    alookup (ss.foldl handleRnodeDiscovery m) a =
      (match alookup m a with
       | some v => some v
       | none => (firstSighting ss a).map mkRNodeDevice) := by
  induction ss generalizing m with
  | nil => cases h : alookup m a <;> simp [h, firstSighting]
  | cons s ss ih =>
    rw [List.foldl_cons]
    by_cases hs : (alookup m s.address).isSome
    · rw [show handleRnodeDiscovery m s = m from by simp [handleRnodeDiscovery, hs], ih]
      by_cases ha : s.address = a
      · subst ha
        obtain ⟨v, hv⟩ := Option.isSome_iff_exists.mp hs
        simp [hv]
      · cases hma : alookup m a <;> simp [hma, firstSighting, ha]
    · have hs' : alookup m s.address = none := Option.not_isSome_iff_eq_none.mp hs
      rw [show handleRnodeDiscovery m s = m ++ [(s.address, mkRNodeDevice s)] from by
            simp [handleRnodeDiscovery, hs], ih]
      by_cases ha : s.address = a
      · subst ha
        rw [alookup_append_none m _ _ hs']
        simp [alookup, firstSighting, hs']
      · cases hma : alookup m a with
        | some v =>
          rw [alookup_append_some m _ a v hma]
        | none =>
          rw [alookup_append_none m _ _ hma, show alookup [(s.address, mkRNodeDevice s)] a
              = none from by simp [alookup, ha]]
          simp [hma, firstSighting, ha]

/-- Every entry of the discovered map stores a record whose address is its
key. -/
theorem scanFold_addr_inv (ss : List Sighting) (m : List (String × RNodeDeviceRec))
    (hm : ∀ p ∈ m, (p.2).address = p.1) :
    ∀ p ∈ ss.foldl handleRnodeDiscovery m, (p.2).address = p.1 := by
  induction ss generalizing m with
  | nil => simpa using hm
  | cons s ss ih =>
    rw [List.foldl_cons]
    apply ih
    intro p hp
    by_cases hs : (alookup m s.address).isSome
    · rw [show handleRnodeDiscovery m s = m from by simp [handleRnodeDiscovery, hs]] at hp
      exact hm p hp
    · rw [show handleRnodeDiscovery m s = m ++ [(s.address, mkRNodeDevice s)] from by
            simp [handleRnodeDiscovery, hs]] at hp
      rcases List.mem_append.mp hp with hp | hp
      · exact hm p hp
      · rw [List.mem_singleton.mp hp]
        rfl

/-- Searching the values list by address agrees with the keyed lookup. -/
theorem findByAddress_map_snd (m : List (String × RNodeDeviceRec)) (a : String)
    (hm : ∀ p ∈ m, (p.2).address = p.1) :
    findByAddress (m.map Prod.snd) a = alookup m a := by
  induction m with
  | nil => rfl
  | cons p rest ih =>
    obtain ⟨k, v⟩ := p
    have hk : v.address = k := hm (k, v) (List.mem_cons_self _ _)
    have hrest : ∀ q ∈ rest, (q.2).address = q.1 :=
      fun q hq => hm q (List.mem_cons_of_mem _ hq)
    by_cases hka : k = a
    · simp [findByAddress, alookup, hk, hka]
    · rw [List.map_cons, findByAddress, alookup, if_neg hka, if_neg (by simpa [hk] using hka)]
      exact ih hrest

/-- Counting values by address agrees with counting keys. -/
theorem countP_values_eq_keys (m : List (String × RNodeDeviceRec)) (a : String)
    (hm : ∀ p ∈ m, (p.2).address = p.1) :
    (m.map Prod.snd).countP (fun d => decide (d.address = a))
      = m.countP (fun p => decide (p.1 = a)) := by
  rw [List.countP_map]
  apply List.countP_congr
  intro p hp
  simp [Function.comp, hm p hp]

/-- Once an address is present in the accumulator, the scan fold never adds
another entry for it. -/
theorem scanFold_keyCount_of_some (ss : List Sighting)
    (m : List (String × RNodeDeviceRec)) (a : String)
    (hm : (alookup m a).isSome) :
    (ss.foldl handleRnodeDiscovery m).countP (fun p => decide (p.1 = a))
      = m.countP (fun p => decide (p.1 = a)) := by
  induction ss generalizing m with
  | nil => rfl
  | cons s ss ih =>
    rw [List.foldl_cons]
    by_cases hs : (alookup m s.address).isSome
    · rw [show handleRnodeDiscovery m s = m from by simp [handleRnodeDiscovery, hs]]
      exact ih m hm
    · obtain ⟨v, hv⟩ := Option.isSome_iff_exists.mp hm
      have hne : s.address ≠ a := fun he => hs (by rw [he]; simp [hv])
      rw [show handleRnodeDiscovery m s = m ++ [(s.address, mkRNodeDevice s)] from by
            simp [handleRnodeDiscovery, hs]]
      rw [ih _ (by simp [alookup_append_some m _ a v hv])]
      simp [List.countP_append, List.countP_cons, hne]

/-- When an address is absent from the accumulator, the scan fold adds
exactly one entry for it iff the address is sighted. -/
theorem scanFold_keyCount_of_none (ss : List Sighting)
    (m : List (String × RNodeDeviceRec)) (a : String)
    (hm : alookup m a = none) :
    (ss.foldl handleRnodeDiscovery m).countP (fun p => decide (p.1 = a))
      = m.countP (fun p => decide (p.1 = a))
        + (if (firstSighting ss a).isSome then 1 else 0) := by
  induction ss generalizing m with
  | nil => simp [firstSighting]
  | cons s ss ih =>
    rw [List.foldl_cons]
    by_cases hs : (alookup m s.address).isSome
    · have hne : s.address ≠ a := fun he => by rw [he, hm] at hs; simp at hs
      rw [show handleRnodeDiscovery m s = m from by simp [handleRnodeDiscovery, hs], ih m hm]
      simp [firstSighting, hne]
    · rw [show handleRnodeDiscovery m s = m ++ [(s.address, mkRNodeDevice s)] from by
            simp [handleRnodeDiscovery, hs]]
      by_cases ha : s.address = a
      · subst ha
        rw [scanFold_keyCount_of_some ss _ _ (by
              simp [alookup_append_none m _ _ hm, alookup])]
        simp [List.countP_append, List.countP_cons, firstSighting]
      · rw [ih _ (by rw [alookup_append_none m _ _ hm]; simp [alookup, ha])]
        simp [List.countP_append, List.countP_cons, firstSighting, ha]

/-- Counterexample for C7 as stated: two sightings of the same address with
RSSI −50 then −40 yield a single entry whose RSSI is −50 — the value captured
at the first sighting; the later sighting does not update it, so the latest
RSSI does not win. -/
theorem discovery_latest_rssi_counterexample :
    (scanForRnodes sightingsEx).map RNodeDeviceRec.rssi = [some (-50)] ∧
    (sightingsEx.map Sighting.rssi).getLast? = some (some (-40)) ∧
    some (-50 : Int) ≠ some (-40 : Int) :=
  ⟨by decide, by decide, by decide⟩

/-- C7 (amended): a scan during which the same address advertises `k ≥ 1`
times yields exactly one entry for that address, and that entry is the record
created at the first sighting — in particular its RSSI is the first
sighting's, and later sightings do not update it. -/
theorem discovery_dedup_first_rssi (sightings : List Sighting) (a : String)
    (h : (firstSighting sightings a).isSome = true) :
    (scanForRnodes sightings).countP (fun d => decide (d.address = a)) = 1 ∧
    findByAddress (scanForRnodes sightings) a
      = (firstSighting sightings a).map mkRNodeDevice ∧
    (findByAddress (scanForRnodes sightings) a).map RNodeDeviceRec.rssi
      = (firstSighting sightings a).map Sighting.rssi := by
  have hinv : ∀ p ∈ sightings.foldl handleRnodeDiscovery [], (p.2).address = p.1 :=
    scanFold_addr_inv sightings [] (by simp)
  have hfind : findByAddress (scanForRnodes sightings) a
      = alookup (sightings.foldl handleRnodeDiscovery []) a :=
    findByAddress_map_snd _ a hinv
  have hlook := scanFold_alookup sightings [] a
  rw [show alookup ([] : List (String × RNodeDeviceRec)) a = none from rfl] at hlook
  refine ⟨?_, ?_, ?_⟩
  · rw [scanForRnodes, countP_values_eq_keys _ a hinv,
      scanFold_keyCount_of_none sightings [] a rfl]
    simp [h]
  · rw [hfind, hlook]
  · rw [hfind, hlook]
    cases firstSighting sightings a <;> simp [mkRNodeDevice]

/-- Witness for C7 at two sightings of one address. -/
theorem discovery_dedup_first_rssi_witness :
    (firstSighting sightingsEx "AA:BB:CC:DD:EE:01").isSome = true ∧
    ((scanForRnodes sightingsEx).countP
        (fun d => decide (d.address = "AA:BB:CC:DD:EE:01")) = 1 ∧
     findByAddress (scanForRnodes sightingsEx) "AA:BB:CC:DD:EE:01"
       = (firstSighting sightingsEx "AA:BB:CC:DD:EE:01").map mkRNodeDevice ∧
     (findByAddress (scanForRnodes sightingsEx) "AA:BB:CC:DD:EE:01").map RNodeDeviceRec.rssi
       = (firstSighting sightingsEx "AA:BB:CC:DD:EE:01").map Sighting.rssi) :=
  ⟨by decide, discovery_dedup_first_rssi sightingsEx "AA:BB:CC:DD:EE:01" (by decide)⟩

/-- Counterexample for C8 as stated: with cached PIN `"123456"` and a confirm
request for `654321`, `on_confirm_pin` returns reject and emits no pairing
event — it neither surfaces the value nor accepts. -/
theorem confirm_pin_counterexample :
    onConfirmPin (some "123456") "AA:BB:CC:DD:EE:01" 654321 = (false, []) ∧
    (false, ([] : List PairingEvent))
      ≠ (true, [{ address := "AA:BB:CC:DD:EE:01", eventType := "pin_confirm",
                  pinValue := 654321 }]) :=
  ⟨by decide, by decide⟩

/-- C8 (amended): `on_confirm_pin(pin)` returns accept with no event when the
cached PIN parses as an integer equal to `pin`; it returns reject with no
event when the cached PIN parses to a different integer; and only when no PIN
is cached (or the cached PIN is empty or non-numeric) does it surface the
value through the pairing event channel and return accept. -/
theorem confirm_pin_policy (address sp bad : String) (pin n : Nat)
    (hn : pyInt? sp = some n) (hb : pyInt? bad = none) :
    onConfirmPin (some sp) address pin = (decide (n = pin), []) ∧
    onConfirmPin (some bad) address pin
      = (true, [{ address := address, eventType := "pin_confirm", pinValue := pin }]) ∧
    onConfirmPin none address pin
      = (true, [{ address := address, eventType := "pin_confirm", pinValue := pin }]) := by
  have hsp : sp ≠ "" := by
    intro he
    rw [he, show pyInt? "" = none from rfl] at hn
    cases hn
  refine ⟨by simp [onConfirmPin, hsp, hn], ?_, rfl⟩
  by_cases hbe : bad = ""
  · simp [onConfirmPin, hbe]
  · simp [onConfirmPin, hbe, hb]

/-- Witness for C8 with a numeric cached PIN that matches, a non-numeric
cached PIN, and no cached PIN. -/
theorem confirm_pin_policy_witness :
    (pyInt? "123456" = some 123456 ∧ pyInt? "abc" = none) ∧
    (onConfirmPin (some "123456") "AA:BB:CC:DD:EE:01" 123456
       = (decide ((123456 : Nat) = 123456), []) ∧
     onConfirmPin (some "abc") "AA:BB:CC:DD:EE:01" 123456
       = (true, [{ address := "AA:BB:CC:DD:EE:01", eventType := "pin_confirm",
                   pinValue := 123456 }]) ∧
     onConfirmPin none "AA:BB:CC:DD:EE:01" 123456
       = (true, [{ address := "AA:BB:CC:DD:EE:01", eventType := "pin_confirm",
                   pinValue := 123456 }])) :=
  ⟨⟨by decide, by decide⟩,
   confirm_pin_policy "AA:BB:CC:DD:EE:01" "123456" "abc" 123456 123456
     (by decide) (by decide)⟩

end RNodeBLEBridge

